import Mathlib

/-!
Shallow embedding of the trapdoor SNMP trap receiver (Rust) for
specification checking.  The embedding follows the source files:

* `asn1`  — src/asn1.rs   (BER-subset TLV decoder used by the packet layer)
* `snmp`  — src/snmp.rs   (SNMP v1 packet / Trap semantic layer)
* `lib`   — src/lib.rs    (the historical decoder variant kept in lib.rs,
                           whose Trap arm processes variable bindings)

Rust cursors (`io::Cursor<&[u8]>`) are modelled as a byte list plus a
position; byte reads yield `b % 256` (the payload of a `u8`); machine
integer overflow is made explicit with `% 2^32`, `% 2^64`, and a signed
64-bit wrap for `i64`.  Fallible code returns `Except`; recursive-descent
loops take an explicit fuel argument (the source loops always consume at
least one byte per step, so any fuel larger than the buffer length is
enough; fuel exhaustion is marked by a dedicated error constructor that
adequate fuel never produces).  Rust panics (out-of-bounds slice indexing)
are modelled as an explicit outcome distinct from returned errors.
-/

set_option maxRecDepth 8000

deriving instance DecidableEq for Except

namespace asn1

/-- Errors of src/asn1.rs.  `Io` models `Error::Io` (failed `read_exact`),
`ByteOrder` models `Error::ByteOrder` (failed `read_u8`/`read_u16`),
and `FuelOut` is the embedding's marker for fuel exhaustion, never produced
when the fuel exceeds the buffer length. -/
inductive Error where
  | Io : Error
  | ByteOrder : Error
  | UnexpectedValue : Error
  | WrongType : Error
  | FuelOut : Error
deriving DecidableEq, Repr

/-- `io::Cursor<&[u8]>`: the whole buffer plus the read position. -/
structure Cursor where
  buf : List Nat
  pos : Nat
deriving DecidableEq, Repr

/-- `read_byte`: one `u8` via `read_u8`, failing with `ByteOrder` at the end
of the buffer.  The `% 256` records that the value read is a `u8`. -/
def read_byte (c : Cursor) : Except Error (Nat × Cursor) :=
  match c.buf.get? c.pos with
  | some b => .ok (b % 256, ⟨c.buf, c.pos + 1⟩)
  | none => .error .ByteOrder

/-- `read_exact` on the cursor: `len` bytes or `Error::Io` (an
`io::Error` for the short read). -/
def read_exact (c : Cursor) (len : Nat) : Except Error (List Nat × Cursor) :=
  if c.pos + len ≤ c.buf.length then
    .ok (((c.buf.drop c.pos).take len).map (fun b => b % 256), ⟨c.buf, c.pos + len⟩)
  else
    .error .Io

/-- `read_u16::<BigEndian>`: two bytes, failing with `ByteOrder` short. -/
def read_u16be (c : Cursor) : Except Error (Nat × Cursor) :=
  match read_byte c with
  | .error _ => .error .ByteOrder
  | .ok (hi, c₁) =>
    match read_byte c₁ with
    | .error _ => .error .ByteOrder
    | .ok (lo, c₂) => .ok (hi * 256 + lo, c₂)

/-- The tag enum of src/asn1.rs. -/
inductive ASN1Type where
  | EndOfContents | Boolean | Integer | BitString | OctetString | Null
  | ObjectIdentifier | ObjectDescription
  | Sequence
  | IPAddress | Counter32 | Gauge32 | TimeTicks | Opaque | NsapAddress
  | Counter64 | Uinteger32
  | NoSuchObject | NoSuchInstance | EndOfMibView
  | GetRequest | GetNextRequest | GetResponse | SetRequest | Trap
  | GetBulkRequest | InformRequest | SnmpV2Trap | Report
deriving DecidableEq, Repr

/-- `ASN1Type::from`: the fixed tag lookup table of src/asn1.rs lines
119–153.  (The match in the source has no arm for `0x44`, although the
enum declares `Opaque = 0x44`.) -/
def ASN1Type.from (b : Nat) : Except Error ASN1Type :=
  match b with
  | 0 => .ok .EndOfContents
  | 1 => .ok .Boolean
  | 2 => .ok .Integer
  | 3 => .ok .BitString
  | 4 => .ok .OctetString
  | 5 => .ok .Null
  | 6 => .ok .ObjectIdentifier
  | 7 => .ok .ObjectDescription
  | 0x30 => .ok .Sequence
  | 0x40 => .ok .IPAddress
  | 0x41 => .ok .Counter32
  | 0x42 => .ok .Gauge32
  | 0x43 => .ok .TimeTicks
  | 0x45 => .ok .NsapAddress
  | 0x46 => .ok .Counter64
  | 0x47 => .ok .Uinteger32
  | 0x80 => .ok .NoSuchObject
  | 0x81 => .ok .NoSuchInstance
  | 0x82 => .ok .EndOfMibView
  | 0xa0 => .ok .GetRequest
  | 0xa1 => .ok .GetNextRequest
  | 0xa2 => .ok .GetResponse
  | 0xa3 => .ok .SetRequest
  | 0xa4 => .ok .Trap
  | 0xa5 => .ok .GetBulkRequest
  | 0xa6 => .ok .InformRequest
  | 0xa7 => .ok .SnmpV2Trap
  | 0xa8 => .ok .Report
  | _ => .error .WrongType

/-- IP addresses: v4 as four octets, v6 as eight big-endian 16-bit groups. -/
inductive IpAddr where
  | v4 : Nat → Nat → Nat → Nat → IpAddr
  | v6 : List Nat → IpAddr
deriving DecidableEq, Repr

/-- The value union of src/asn1.rs.  `OctetString`/`ObjectDescription`
carry the UTF-8-validated bytes of the Rust `String`; `BitString` carries
the bits of the `BitVec`. -/
inductive ASN1Value where
  | EndOfContents : ASN1Value
  | Sequence : List ASN1Value → ASN1Value
  | Boolean : Bool → ASN1Value
  | Integer : Int → ASN1Value
  | BitString : List Bool → ASN1Value
  | OctetString : List Nat → ASN1Value
  | Null : ASN1Value
  | ObjectIdentifier : List Nat → ASN1Value
  | ObjectDescription : List Nat → ASN1Value
  | IPAddress : IpAddr → ASN1Value
  | Counter32 : Nat → ASN1Value
  | Gauge32 : Nat → ASN1Value
  | TimeTicks : Nat → ASN1Value
  | Opaque : List Nat → ASN1Value
  | NsapAddress : List Nat → ASN1Value
  | Counter64 : Nat → ASN1Value
  | Uinteger32 : Nat → ASN1Value
  | NoSuchObject : ASN1Value
  | NoSuchInstance : ASN1Value
  | EndOfMibView : ASN1Value
  | Trap : List ASN1Value → ASN1Value

/-- `ASN1Value::as_oid`. -/
def ASN1Value.as_oid : ASN1Value → Except Error (List Nat)
  | .ObjectIdentifier a => .ok a
  | _ => .error .WrongType

/-- `ASN1Value::as_ipaddr`. -/
def ASN1Value.as_ipaddr : ASN1Value → Except Error IpAddr
  | .IPAddress a => .ok a
  | _ => .error .WrongType

/-- `ASN1Value::as_bool`. -/
def ASN1Value.as_bool : ASN1Value → Except Error Bool
  | .Boolean b => .ok b
  | _ => .error .WrongType

/-- `ASN1Value::as_i64`. -/
def ASN1Value.as_i64 : ASN1Value → Except Error Int
  | .Integer i => .ok i
  | _ => .error .WrongType

/-- `ASN1Value::as_u32`: `Integer(x) => x as u32` is the low 32 bits of the
two's-complement `i64`, i.e. `(x % 2^32).toNat` with `Int.emod`. -/
def ASN1Value.as_u32 : ASN1Value → Except Error Nat
  | .Integer x => .ok (x % (2 ^ 32 : Int)).toNat
  | .TimeTicks x => .ok x
  | _ => .error .WrongType

/-- `ASN1Value::as_string`. -/
def ASN1Value.as_string : ASN1Value → Except Error (List Nat)
  | .OctetString s => .ok s
  | _ => .error .WrongType

/-- `ASN1Value::as_sequence`: accepts both `Sequence` and `Trap`. -/
def ASN1Value.as_sequence : ASN1Value → Except Error (List ASN1Value)
  | .Sequence v => .ok v
  | .Trap v => .ok v
  | _ => .error .WrongType

/-- The loop of `read_length`'s long form: read `n` octets into a big-endian
`usize` accumulator (`ex_length <<= 8; ex_length += byte`, wrapping at
64 bits as the Rust shift does). -/
def read_length_go : Nat → Nat → Cursor → Except Error (Nat × Cursor)
  | 0, acc, c => .ok (acc, c)
  | n + 1, acc, c =>
    match read_byte c with
    | .error e => .error e
    | .ok (b, c') => read_length_go n (acc * 256 % 2 ^ 64 + b) c'

/-- `read_length` (src/asn1.rs lines 330–344): first octet `< 127` is the
length itself; otherwise the low 7 bits (`length & 127 = length % 128`)
count the big-endian octets that follow. -/
def read_length (c : Cursor) : Except Error (Nat × Cursor) :=
  match read_byte c with
  | .error e => .error e
  | .ok (length, c') =>
    if length < 127 then .ok (length, c')
    else read_length_go (length % 128) 0 c'

/-- Two's-complement wrap of an integer into `i64`. -/
def wrap64 (x : Int) : Int := (x + 2 ^ 63) % 2 ^ 64 - 2 ^ 63

/-- The loop of `read_integer`: `v <<= 8; v += byte as i64` on an `i64`. -/
def read_integer_go : Nat → Int → Cursor → Except Error (Int × Cursor)
  | 0, v, c => .ok (v, c)
  | n + 1, v, c =>
    match read_byte c with
    | .error e => .error e
    | .ok (b, c') => read_integer_go n (wrap64 (v * 256 + b)) c'

/-- `read_integer` (src/asn1.rs lines 346–354): `len` bytes accumulated
big-endian into an `i64`, with no sign extension. -/
def read_integer (c : Cursor) (len : Nat) : Except Error (Int × Cursor) :=
  read_integer_go len 0 c

/-- The loop of `read_base128int` (src/asn1.rs lines 356–370), fueled: at
the top of each iteration the accumulated *value* `r` is compared with 4
(`if r > 4 { return Err(UnexpectedValue) }`), then `r <<= 8` (sic: a shift
by 8, wrapping as `u32`) and the low 7 bits of the next octet are added;
the loop ends on an octet with the high bit clear (`b & 0x80 == 0`, i.e.
`b < 128` for a `u8`). -/
def read_base128int_go : Nat → Nat → Cursor → Except Error (Nat × Cursor)
  | 0, _, _ => .error .FuelOut
  | fuel + 1, r, c =>
    if r > 4 then .error .UnexpectedValue
    else
      match read_byte c with
      | .error e => .error e
      | .ok (b, c') =>
        let r' := (r * 256 % 2 ^ 32 + b % 128) % 2 ^ 32
        if b < 128 then .ok (r', c') else read_base128int_go fuel r' c'

/-- `read_base128int`: each iteration consumes one byte, so fuel one larger
than the buffer's remaining bytes is never exhausted. -/
def read_base128int (c : Cursor) : Except Error (Nat × Cursor) :=
  read_base128int_go (c.buf.length - c.pos + 1) 0 c

/-- The arc loop of `read_oid`: while fewer than `len` bytes have been
consumed since `start`, read one base-128 arc and append it. -/
def read_oid_go : Nat → Cursor → Nat → Nat → Except Error (List Nat × Cursor)
  | 0, _, _, _ => .error .FuelOut
  | fuel + 1, c, start, len =>
    if c.pos - start < len then
      match read_base128int c with
      | .error e => .error e
      | .ok (val, c') =>
        match read_oid_go fuel c' start len with
        | .error e => .error e
        | .ok (vals, c'') => .ok (val :: vals, c'')
    else .ok ([], c)

/-- `read_oid` (src/asn1.rs lines 372–387): the first octet expands into
the two leading arcs `v / 40` and `v % 40`; the remaining arcs come from
`read_base128int` until `len` content bytes are consumed. -/
def read_oid (c : Cursor) (len : Nat) : Except Error (List Nat × Cursor) :=
  let start := c.pos
  match read_byte c with
  | .error e => .error e
  | .ok (v, c₁) =>
    match read_oid_go (len + 1) c₁ start len with
    | .error e => .error e
    | .ok (vals, c') => .ok (v / 40 :: v % 40 :: vals, c')

/-- `read_ip_address` (src/asn1.rs lines 390–413). -/
def read_ip_address (c : Cursor) (size : Nat) : Except Error (IpAddr × Cursor) :=
  match size with
  | 4 =>
    match read_exact c 4 with
    | .error e => .error e
    | .ok (bytes, c') =>
      .ok (.v4 (bytes.getD 0 0) (bytes.getD 1 0) (bytes.getD 2 0) (bytes.getD 3 0), c')
  | 16 =>
    match read_u16be c with
    | .error e => .error e
    | .ok (e0, c1) =>
    match read_u16be c1 with
    | .error e => .error e
    | .ok (e1, c2) =>
    match read_u16be c2 with
    | .error e => .error e
    | .ok (e2, c3) =>
    match read_u16be c3 with
    | .error e => .error e
    | .ok (e3, c4) =>
    match read_u16be c4 with
    | .error e => .error e
    | .ok (e4, c5) =>
    match read_u16be c5 with
    | .error e => .error e
    | .ok (e5, c6) =>
    match read_u16be c6 with
    | .error e => .error e
    | .ok (e6, c7) =>
    match read_u16be c7 with
    | .error e => .error e
    | .ok (e7, c8) => .ok (.v6 [e0, e1, e2, e3, e4, e5, e6, e7], c8)
  | _ => .error .UnexpectedValue

/-- `read_tag_value` (src/asn1.rs lines 238–242). -/
def read_tag_value (c : Cursor) : Except Error ((ASN1Type × Nat) × Cursor) :=
  match read_byte c with
  | .error e => .error e
  | .ok (b, c₁) =>
    match ASN1Type.from b with
    | .error e => .error e
    | .ok t =>
      match read_length c₁ with
      | .error e => .error e
      | .ok (length, c₂) => .ok ((t, length), c₂)

/-- UTF-8 validity of a byte list, as `String::from_utf8` checks it
(RFC 3629: no surrogates, no overlong forms, at most U+10FFFF). -/
def utf8Valid : List Nat → Bool
  | [] => true
  | b :: rest =>
    if b < 0x80 then utf8Valid rest
    else if 0xc2 ≤ b ∧ b ≤ 0xdf then
      match rest with
      | c1 :: rest' => decide (0x80 ≤ c1 ∧ c1 ≤ 0xbf) && utf8Valid rest'
      | _ => false
    else if b = 0xe0 then
      match rest with
      | c1 :: c2 :: rest' =>
        decide (0xa0 ≤ c1 ∧ c1 ≤ 0xbf) && decide (0x80 ≤ c2 ∧ c2 ≤ 0xbf) && utf8Valid rest'
      | _ => false
    else if (0xe1 ≤ b ∧ b ≤ 0xec) ∨ b = 0xee ∨ b = 0xef then
      match rest with
      | c1 :: c2 :: rest' =>
        decide (0x80 ≤ c1 ∧ c1 ≤ 0xbf) && decide (0x80 ≤ c2 ∧ c2 ≤ 0xbf) && utf8Valid rest'
      | _ => false
    else if b = 0xed then
      match rest with
      | c1 :: c2 :: rest' =>
        decide (0x80 ≤ c1 ∧ c1 ≤ 0x9f) && decide (0x80 ≤ c2 ∧ c2 ≤ 0xbf) && utf8Valid rest'
      | _ => false
    else if b = 0xf0 then
      match rest with
      | c1 :: c2 :: c3 :: rest' =>
        decide (0x90 ≤ c1 ∧ c1 ≤ 0xbf) && decide (0x80 ≤ c2 ∧ c2 ≤ 0xbf) &&
          decide (0x80 ≤ c3 ∧ c3 ≤ 0xbf) && utf8Valid rest'
      | _ => false
    else if 0xf1 ≤ b ∧ b ≤ 0xf3 then
      match rest with
      | c1 :: c2 :: c3 :: rest' =>
        decide (0x80 ≤ c1 ∧ c1 ≤ 0xbf) && decide (0x80 ≤ c2 ∧ c2 ≤ 0xbf) &&
          decide (0x80 ≤ c3 ∧ c3 ≤ 0xbf) && utf8Valid rest'
      | _ => false
    else if b = 0xf4 then
      match rest with
      | c1 :: c2 :: c3 :: rest' =>
        decide (0x80 ≤ c1 ∧ c1 ≤ 0x8f) && decide (0x80 ≤ c2 ∧ c2 ≤ 0xbf) &&
          decide (0x80 ≤ c3 ∧ c3 ≤ 0xbf) && utf8Valid rest'
      | _ => false
    else false

/-- `String::from_utf8` at a `try!` site of src/asn1.rs: invalid UTF-8
becomes `Error::WrongType` through `From<FromUtf8Error>`. -/
def string_from_utf8 (bs : List Nat) : Except Error (List Nat) :=
  if utf8Valid bs then .ok bs else .error .WrongType

/-- The loop of `read_sequence` (src/asn1.rs lines 244–252), parameterised
by the decoder for one child value: while fewer than `len` bytes are
consumed since `start`, decode one child and append it. -/
def read_sequence_go (d : Cursor → Except Error (ASN1Value × Cursor)) :
    Nat → Cursor → Nat → Nat → Except Error (List ASN1Value × Cursor)
  | 0, _, _, _ => .error .FuelOut
  | fuel + 1, c, start, len =>
    if c.pos - start < len then
      match d c with
      | .error e => .error e
      | .ok (val, c') =>
        match read_sequence_go d fuel c' start len with
        | .error e => .error e
        | .ok (vals, c'') => .ok (val :: vals, c'')
    else .ok ([], c)

/-- `decode_value` (src/asn1.rs lines 254–323), fueled for the recursion
into containers: read tag and length, reject a length larger than the
*whole* buffer (`length > c.get_ref().len()`), then dispatch on tag. -/
def decodeValueF : Nat → Cursor → Except Error (ASN1Value × Cursor)
  | 0, _ => .error .FuelOut
  | fuel + 1, c =>
    match read_tag_value c with
    | .error e => .error e
    | .ok ((asn_type, length), c₁) =>
      if length > c₁.buf.length then .error .UnexpectedValue
      else
        match asn_type with
        | .Sequence =>
          match read_sequence_go (decodeValueF fuel) (length + 1) c₁ c₁.pos length with
          | .error e => .error e
          | .ok (vals, c') => .ok (.Sequence vals, c')
        | .Integer =>
          match read_integer c₁ length with
          | .error e => .error e
          | .ok (val, c') => .ok (.Integer val, c')
        | .OctetString =>
          match read_exact c₁ length with
          | .error e => .error e
          | .ok (s, c') =>
            match string_from_utf8 s with
            | .error e => .error e
            | .ok s' => .ok (.OctetString s', c')
        | .Null => .ok (.Null, c₁)
        | .ObjectIdentifier =>
          match read_oid c₁ length with
          | .error e => .error e
          | .ok (x, c') => .ok (.ObjectIdentifier x, c')
        | .IPAddress =>
          match read_ip_address c₁ length with
          | .error e => .error e
          | .ok (x, c') => .ok (.IPAddress x, c')
        | .Counter32 =>
          match read_integer c₁ length with
          | .error e => .error e
          | .ok (x, c') => .ok (.Counter32 (x % (2 ^ 32 : Int)).toNat, c')
        | .Gauge32 =>
          match read_integer c₁ length with
          | .error e => .error e
          | .ok (x, c') => .ok (.Gauge32 (x % (2 ^ 32 : Int)).toNat, c')
        | .TimeTicks =>
          match read_integer c₁ length with
          | .error e => .error e
          | .ok (x, c') => .ok (.TimeTicks (x % (2 ^ 32 : Int)).toNat, c')
        | .Counter64 =>
          match read_integer c₁ length with
          | .error e => .error e
          | .ok (x, c') => .ok (.Counter64 (x % (2 ^ 64 : Int)).toNat, c')
        | .Opaque =>
          match read_exact c₁ length with
          | .error e => .error e
          | .ok (buf, c') => .ok (.Opaque buf, c')
        | .NoSuchObject => .ok (.NoSuchObject, c₁)
        | .NoSuchInstance => .ok (.NoSuchInstance, c₁)
        | .EndOfMibView => .ok (.EndOfMibView, c₁)
        | .EndOfContents => .ok (.EndOfContents, c₁)
        | .Trap =>
          match read_sequence_go (decodeValueF fuel) (length + 1) c₁ c₁.pos length with
          | .error e => .error e
          | .ok (vals, c') => .ok (.Trap vals, c')
        | _ => .error .WrongType

/-- `decode_value`: nesting consumes at least two bytes per level, so fuel
one larger than the buffer length is never exhausted. -/
def decode_value (c : Cursor) : Except Error (ASN1Value × Cursor) :=
  decodeValueF (c.buf.length + 1) c

/-- `oid_equals` (src/asn1.rs lines 24–31): zip the two arc slices and
compare pointwise; length differences are ignored. -/
def oid_equals (a b : List Nat) : Bool :=
  (a.zip b).all fun p => p.1 == p.2

end asn1

namespace snmp

/-- `SnmpError` of src/snmp.rs; `Generic` carries the ad hoc message. -/
inductive SnmpError where
  | ASN1Error : asn1.Error → SnmpError
  | WrongType : SnmpError
  | Generic : String → SnmpError
deriving DecidableEq, Repr

/-- How a call into src/snmp.rs ends when it does not return a value: with
a returned error, or with a Rust panic (out-of-bounds slice indexing such
as `sequence[0]` on a short slice). -/
inductive Fail where
  | error : SnmpError → Fail
  | panic : Fail
deriving DecidableEq, Repr

/-- Result of a fallible src/snmp.rs computation, with panics explicit. -/
abbrev PResult (α : Type) : Type := Except Fail α

/-- `try!` on an `asn1::ASN1Result`: the error converts through
`From<asn1::Error> for SnmpError`. -/
def liftA {α : Type} : Except asn1.Error α → PResult α
  | .ok a => .ok a
  | .error e => .error (.error (.ASN1Error e))

/-- Rust slice indexing `v[i]`: out of bounds panics. -/
def idx (v : List asn1.ASN1Value) (i : Nat) : PResult asn1.ASN1Value :=
  match v.get? i with
  | some x => .ok x
  | none => .error .panic

/-- `GenericTrap` (src/snmp.rs lines 122–131). -/
inductive GenericTrap where
  | ColdStart | WarmStart | LinkDown | LinkUp
  | AuthenticationFailure | EgpNeighborLoss | EnterpriseSpecific
deriving DecidableEq, Repr

/-- `GenericTrap::new` (src/snmp.rs lines 133–147). -/
def GenericTrap.new (b : Nat) : Except SnmpError GenericTrap :=
  match b with
  | 0 => .ok .ColdStart
  | 1 => .ok .WarmStart
  | 2 => .ok .LinkDown
  | 3 => .ok .LinkUp
  | 4 => .ok .AuthenticationFailure
  | 5 => .ok .EgpNeighborLoss
  | 6 => .ok .EnterpriseSpecific
  | _ => .error (.Generic "idk")

/-- `Trap` (src/snmp.rs lines 149–157): `vars` embeds the source field
`variables` (a Lean keyword): the raw decoded elements of the
variable-binding sequence (`Box<[ASN1Value]>`). -/
structure Trap where
  enterprise_oid : List Nat
  agent_address : asn1.IpAddr
  generic : GenericTrap
  specific : Nat
  time_ticks : Nat
  vars : List asn1.ASN1Value

/-- `decode_trap` (src/snmp.rs lines 169–188). -/
def decode_trap (v : List asn1.ASN1Value) : PResult Trap :=
  if v.length < 6 then .error (.error (.Generic "invalid length"))
  else
    match idx v 0 with
    | .error f => .error f
    | .ok e0 =>
    match liftA e0.as_oid with
    | .error f => .error f
    | .ok oid =>
    match idx v 1 with
    | .error f => .error f
    | .ok e1 =>
    match liftA e1.as_ipaddr with
    | .error f => .error f
    | .ok addr =>
    match idx v 2 with
    | .error f => .error f
    | .ok e2 =>
    match liftA e2.as_u32 with
    | .error f => .error f
    | .ok g =>
    match GenericTrap.new g with
    | .error e => .error (.error e)
    | .ok trap =>
    match idx v 3 with
    | .error f => .error f
    | .ok e3 =>
    match liftA e3.as_u32 with
    | .error f => .error f
    | .ok specific =>
    match idx v 4 with
    | .error f => .error f
    | .ok e4 =>
    match liftA e4.as_u32 with
    | .error f => .error f
    | .ok time_ticks =>
    match idx v 5 with
    | .error f => .error f
    | .ok e5 =>
    match liftA e5.as_sequence with
    | .error f => .error f
    | .ok vars =>
      .ok ⟨oid, addr, trap, specific, time_ticks, vars⟩

/-- `SnmpV1PDU` (src/snmp.rs lines 100–103). -/
inductive SnmpV1PDU where
  | Trap : Trap → SnmpV1PDU

/-- `SnmpV1PDU::new` (src/snmp.rs lines 106–113). -/
def SnmpV1PDU.new (a : asn1.ASN1Value) : PResult SnmpV1PDU :=
  match a with
  | .Trap s =>
    match decode_trap s with
    | .error f => .error f
    | .ok t => .ok (.Trap t)
  | _ => .error (.error (.Generic "invalid type for pdu"))

/-- `SnmpV1Packet` (src/snmp.rs lines 66–70): the community string as its
UTF-8 bytes. -/
structure SnmpV1Packet where
  community : List Nat
  pdu : SnmpV1PDU

/-- `SnmpPacket` (src/snmp.rs lines 61–64). -/
inductive SnmpPacket where
  | V1 : SnmpV1Packet → SnmpPacket

/-- `SnmpPacket::new` (src/snmp.rs lines 73–88): decode the buffer, view it
as a sequence, read version (`sequence[0]`) and community (`sequence[1]`)
by direct indexing, then accept only version 0, reading `sequence[2]` as
the PDU. -/
def SnmpPacket.new (b : List Nat) : PResult SnmpPacket :=
  match liftA (asn1.decode_value ⟨b, 0⟩) with
  | .error f => .error f
  | .ok (decoded, _) =>
  match liftA decoded.as_sequence with
  | .error f => .error f
  | .ok sequence =>
  match idx sequence 0 with
  | .error f => .error f
  | .ok s0 =>
  match liftA s0.as_u32 with
  | .error f => .error f
  | .ok version =>
  match idx sequence 1 with
  | .error f => .error f
  | .ok s1 =>
  match liftA s1.as_string with
  | .error f => .error f
  | .ok community =>
    match version with
    | 0 =>
      match idx sequence 2 with
      | .error f => .error f
      | .ok s2 =>
      match SnmpV1PDU.new s2 with
      | .error f => .error f
      | .ok pdu => .ok (.V1 ⟨community, pdu⟩)
    | _ => .error (.error (.Generic "blah"))

end snmp

namespace lib

/-- The error tags of src/lib.rs, whose `SnmpError` is a boxed message:
one constructor per error site.  `FuelOut` is the embedding's fuel marker. -/
inductive LErr where
  | Io : LErr
  | InvalidType : LErr
  | WrongType : LErr
  | TooBig : LErr
  | Idk : LErr
  | InvalidIpSize : LErr
  | Utf8 : LErr
  | FuelOut : LErr
deriving DecidableEq, Repr

/-- How a call into src/lib.rs ends without a value: a returned error or a
Rust panic (`vbl[1]` on a one-element binding). -/
inductive LFail where
  | error : LErr → LFail
  | panic : LFail
deriving DecidableEq, Repr

/-- Result of a fallible src/lib.rs computation. -/
abbrev LResult (α : Type) : Type := Except LFail α

/-- `read_byte` of src/lib.rs (lines 153–158): `read_exact` of one byte,
failing with an `io::Error` at the end of the buffer. -/
def read_byte (c : asn1.Cursor) : Except LErr (Nat × asn1.Cursor) :=
  match c.buf.get? c.pos with
  | some b => .ok (b % 256, ⟨c.buf, c.pos + 1⟩)
  | none => .error .Io

/-- The long-form loop of `read_length` of src/lib.rs (lines 160–174). -/
def read_length_go : Nat → Nat → asn1.Cursor → Except LErr (Nat × asn1.Cursor)
  | 0, acc, c => .ok (acc, c)
  | n + 1, acc, c =>
    match read_byte c with
    | .error e => .error e
    | .ok (b, c') => read_length_go n (acc * 256 % 2 ^ 64 + b) c'

/-- `read_length` of src/lib.rs — same `< 127` split as src/asn1.rs. -/
def read_length (c : asn1.Cursor) : Except LErr (Nat × asn1.Cursor) :=
  match read_byte c with
  | .error e => .error e
  | .ok (length, c') =>
    if length < 127 then .ok (length, c')
    else read_length_go (length % 128) 0 c'

/-- The loop of `read_integer` of src/lib.rs (lines 176–184). -/
def read_integer_go : Nat → Int → asn1.Cursor → Except LErr (Int × asn1.Cursor)
  | 0, v, c => .ok (v, c)
  | n + 1, v, c =>
    match read_byte c with
    | .error e => .error e
    | .ok (b, c') => read_integer_go n (asn1.wrap64 (v * 256 + b)) c'

/-- `read_integer` of src/lib.rs. -/
def read_integer (c : asn1.Cursor) (len : Nat) : Except LErr (Int × asn1.Cursor) :=
  read_integer_go len 0 c

/-- The loop of `read_base128int` of src/lib.rs (lines 186–202): same
`r > 4` guard and shift by 8 as src/asn1.rs, but also counts bytes read. -/
def read_base128int_go : Nat → Nat → Nat → asn1.Cursor →
    Except LErr ((Nat × Nat) × asn1.Cursor)
  | 0, _, _, _ => .error .FuelOut
  | fuel + 1, r, bytes_read, c =>
    if r > 4 then .error .TooBig
    else
      match read_byte c with
      | .error e => .error e
      | .ok (b, c') =>
        let r' := (r * 256 % 2 ^ 32 + b % 128) % 2 ^ 32
        if b < 128 then .ok ((r', bytes_read + 1), c')
        else read_base128int_go fuel r' (bytes_read + 1) c'

/-- `read_base128int` of src/lib.rs: `(value, bytes_read)`. -/
def read_base128int (c : asn1.Cursor) : Except LErr ((Nat × Nat) × asn1.Cursor) :=
  read_base128int_go (c.buf.length - c.pos + 1) 0 0 c

/-- The arc loop of `parse_oid` of src/lib.rs (lines 204–218): counts the
content bytes consumed (`bytes_read`, starting at 1 for the leading
combined-arc octet) instead of using cursor positions. -/
def parse_oid_go : Nat → Nat → Nat → asn1.Cursor →
    Except LErr (List Nat × asn1.Cursor)
  | 0, _, _, _ => .error .FuelOut
  | fuel + 1, bytes_read, len, c =>
    if bytes_read < len then
      match read_base128int c with
      | .error e => .error e
      | .ok ((val, bytes), c') =>
        match parse_oid_go fuel (bytes_read + bytes) len c' with
        | .error e => .error e
        | .ok (vals, c'') => .ok (val :: vals, c'')
    else .ok ([], c)

/-- `parse_oid` of src/lib.rs. -/
def parse_oid (c : asn1.Cursor) (len : Nat) : Except LErr (List Nat × asn1.Cursor) :=
  match read_byte c with
  | .error e => .error e
  | .ok (v, c₁) =>
    match parse_oid_go (len + 1) 1 len c₁ with
    | .error e => .error e
    | .ok (vals, c') => .ok (v / 40 :: v % 40 :: vals, c')

/-- `read_u16::<BigEndian>` in src/lib.rs, boxed error. -/
def read_u16be (c : asn1.Cursor) : Except LErr (Nat × asn1.Cursor) :=
  match read_byte c with
  | .error _ => .error .Io
  | .ok (hi, c₁) =>
    match read_byte c₁ with
    | .error _ => .error .Io
    | .ok (lo, c₂) => .ok (hi * 256 + lo, c₂)

/-- `read_ip_address` of src/lib.rs (lines 222–245). -/
def read_ip_address (c : asn1.Cursor) (size : Nat) :
    Except LErr (asn1.IpAddr × asn1.Cursor) :=
  match size with
  | 4 =>
    if c.pos + 4 ≤ c.buf.length then
      let bytes := ((c.buf.drop c.pos).take 4).map (fun b => b % 256)
      .ok (.v4 (bytes.getD 0 0) (bytes.getD 1 0) (bytes.getD 2 0) (bytes.getD 3 0),
        ⟨c.buf, c.pos + 4⟩)
    else .error .Io
  | 16 =>
    match read_u16be c with
    | .error e => .error e
    | .ok (e0, c1) =>
    match read_u16be c1 with
    | .error e => .error e
    | .ok (e1, c2) =>
    match read_u16be c2 with
    | .error e => .error e
    | .ok (e2, c3) =>
    match read_u16be c3 with
    | .error e => .error e
    | .ok (e3, c4) =>
    match read_u16be c4 with
    | .error e => .error e
    | .ok (e4, c5) =>
    match read_u16be c5 with
    | .error e => .error e
    | .ok (e5, c6) =>
    match read_u16be c6 with
    | .error e => .error e
    | .ok (e6, c7) =>
    match read_u16be c7 with
    | .error e => .error e
    | .ok (e7, c8) => .ok (.v6 [e0, e1, e2, e3, e4, e5, e6, e7], c8)
  | _ => .error .InvalidIpSize

/-- `ASN1Type::from` of src/lib.rs (lines 49–84): the same table as
src/asn1.rs over the same tag enum (shared here), and again no arm for
`0x44`; unrecognized bytes fail with the boxed "invalid type" error. -/
def ASN1Type_from (b : Nat) : Except LErr asn1.ASN1Type :=
  match b with
  | 0 => .ok .EndOfContents
  | 1 => .ok .Boolean
  | 2 => .ok .Integer
  | 3 => .ok .BitString
  | 4 => .ok .OctetString
  | 5 => .ok .Null
  | 6 => .ok .ObjectIdentifier
  | 7 => .ok .ObjectDescription
  | 0x30 => .ok .Sequence
  | 0x40 => .ok .IPAddress
  | 0x41 => .ok .Counter32
  | 0x42 => .ok .Gauge32
  | 0x43 => .ok .TimeTicks
  | 0x45 => .ok .NsapAddress
  | 0x46 => .ok .Counter64
  | 0x47 => .ok .Uinteger32
  | 0x80 => .ok .NoSuchObject
  | 0x81 => .ok .NoSuchInstance
  | 0x82 => .ok .EndOfMibView
  | 0xa0 => .ok .GetRequest
  | 0xa1 => .ok .GetNextRequest
  | 0xa2 => .ok .GetResponse
  | 0xa3 => .ok .SetRequest
  | 0xa4 => .ok .Trap
  | 0xa5 => .ok .GetBulkRequest
  | 0xa6 => .ok .InformRequest
  | 0xa7 => .ok .SnmpV2Trap
  | 0xa8 => .ok .Report
  | _ => .error .InvalidType

/-- The value union of src/lib.rs (lines 89–112): as in src/asn1.rs except
that `Trap` carries the decoded `Trap` struct (lines 280–288), flattened
here into the constructor: enterprise OID, agent address, generic trap,
specific, time ticks, and the `(name, value)` variable-binding pairs. -/
inductive ASN1Value where
  | EndOfContents : ASN1Value
  | Sequence : List ASN1Value → ASN1Value
  | Boolean : Bool → ASN1Value
  | Integer : Int → ASN1Value
  | BitString : List Bool → ASN1Value
  | OctetString : List Nat → ASN1Value
  | Null : ASN1Value
  | ObjectIdentifier : List Nat → ASN1Value
  | ObjectDescription : List Nat → ASN1Value
  | IPAddress : asn1.IpAddr → ASN1Value
  | Counter32 : Nat → ASN1Value
  | Gauge32 : Nat → ASN1Value
  | TimeTicks : Nat → ASN1Value
  | Opaque : List Nat → ASN1Value
  | NsapAddress : List Nat → ASN1Value
  | Counter64 : Nat → ASN1Value
  | Uinteger32 : Nat → ASN1Value
  | NoSuchObject : ASN1Value
  | NoSuchInstance : ASN1Value
  | EndOfMibView : ASN1Value
  | Trap : List Nat → asn1.IpAddr → snmp.GenericTrap → Nat → Nat →
      List (ASN1Value × ASN1Value) → ASN1Value

/-- `as_oid` of src/lib.rs. -/
def ASN1Value.as_oid : ASN1Value → Except LErr (List Nat)
  | .ObjectIdentifier a => .ok a
  | _ => .error .WrongType

/-- `as_ipaddr` of src/lib.rs. -/
def ASN1Value.as_ipaddr : ASN1Value → Except LErr asn1.IpAddr
  | .IPAddress a => .ok a
  | _ => .error .WrongType

/-- `as_u32` of src/lib.rs: `Integer(x) => x as u32`. -/
def ASN1Value.as_u32 : ASN1Value → Except LErr Nat
  | .Integer x => .ok (x % (2 ^ 32 : Int)).toNat
  | .TimeTicks x => .ok x
  | _ => .error .WrongType

/-- `as_sequence` of src/lib.rs: only the `Sequence` variant. -/
def ASN1Value.as_sequence : ASN1Value → Except LErr (List ASN1Value)
  | .Sequence v => .ok v
  | _ => .error .WrongType

/-- `GenericTrap::new` of src/lib.rs (lines 264–278), over the shared
7-value enum. -/
def GenericTrap_new (b : Nat) : Except LErr snmp.GenericTrap :=
  match b with
  | 0 => .ok .ColdStart
  | 1 => .ok .WarmStart
  | 2 => .ok .LinkDown
  | 3 => .ok .LinkUp
  | 4 => .ok .AuthenticationFailure
  | 5 => .ok .EgpNeighborLoss
  | 6 => .ok .EnterpriseSpecific
  | _ => .error .Idk

/-- The `Sequence` arm's loop of `decode_value` in src/lib.rs (lines
299–306): it compares the cursor's *absolute* position with the declared
content length (`while (c.position() as usize) < length`). -/
def seq_loop (d : asn1.Cursor → LResult (ASN1Value × asn1.Cursor)) :
    Nat → asn1.Cursor → Nat → LResult (List ASN1Value × asn1.Cursor)
  | 0, _, _ => .error (.error .FuelOut)
  | fuel + 1, c, len =>
    if c.pos < len then
      match d c with
      | .error f => .error f
      | .ok (val, c') =>
        match seq_loop d fuel c' len with
        | .error f => .error f
        | .ok (vals, c'') => .ok (val :: vals, c'')
    else .ok ([], c)

/-- The variable-binding loop of the `Trap` arm (src/lib.rs lines
364–371): while fewer than `length` bytes are consumed since `start`,
decode one binding, view it as a sequence `vbl`, and unless it is empty
push `(vbl[0], vbl[1])` — indexing that panics when `vbl` has exactly one
element. -/
def var_loop (d : asn1.Cursor → LResult (ASN1Value × asn1.Cursor)) :
    Nat → asn1.Cursor → Nat → Nat →
    LResult (List (ASN1Value × ASN1Value) × asn1.Cursor)
  | 0, _, _, _ => .error (.error .FuelOut)
  | fuel + 1, c, start, len =>
    if c.pos - start < len then
      match d c with
      | .error f => .error f
      | .ok (v, c') =>
        match v.as_sequence with
        | .error e => .error (.error e)
        | .ok vbl =>
          match vbl with
          | [] =>
            match var_loop d fuel c' start len with
            | .error f => .error f
            | .ok (vars, c'') => .ok (vars, c'')
          | [_] => .error .panic
          | x :: y :: _ =>
            match var_loop d fuel c' start len with
            | .error f => .error f
            | .ok (vars, c'') => .ok ((x, y) :: vars, c'')
    else .ok ([], c)

/-- `decode_value` of src/lib.rs (lines 290–388), fueled: tag then length
(with *no* bound check against the buffer), then dispatch; the `Trap` arm
decodes the five fixed fields and then the variable bindings. -/
def decodeValueF : Nat → asn1.Cursor → LResult (ASN1Value × asn1.Cursor)
  | 0, _ => .error (.error .FuelOut)
  | fuel + 1, c =>
    match read_byte c with
    | .error e => .error (.error e)
    | .ok (b, c₀) =>
    match ASN1Type_from b with
    | .error e => .error (.error e)
    | .ok asn_type =>
    match read_length c₀ with
    | .error e => .error (.error e)
    | .ok (length, c₁) =>
      match asn_type with
      | .Sequence =>
        match seq_loop (decodeValueF fuel) (length + 1) c₁ length with
        | .error f => .error f
        | .ok (out, c') => .ok (.Sequence out, c')
      | .Integer =>
        match read_integer c₁ length with
        | .error e => .error (.error e)
        | .ok (val, c') => .ok (.Integer val, c')
      | .OctetString =>
        if c₁.pos + length ≤ c₁.buf.length then
          let s := ((c₁.buf.drop c₁.pos).take length).map (fun x => x % 256)
          if asn1.utf8Valid s then .ok (.OctetString s, ⟨c₁.buf, c₁.pos + length⟩)
          else .error (.error .Utf8)
        else .error (.error .Io)
      | .Null => .ok (.Null, c₁)
      | .ObjectIdentifier =>
        match parse_oid c₁ length with
        | .error e => .error (.error e)
        | .ok (x, c') => .ok (.ObjectIdentifier x, c')
      | .IPAddress =>
        match read_ip_address c₁ length with
        | .error e => .error (.error e)
        | .ok (x, c') => .ok (.IPAddress x, c')
      | .Counter32 =>
        match read_integer c₁ length with
        | .error e => .error (.error e)
        | .ok (x, c') => .ok (.Counter32 (x % (2 ^ 32 : Int)).toNat, c')
      | .Gauge32 =>
        match read_integer c₁ length with
        | .error e => .error (.error e)
        | .ok (x, c') => .ok (.Gauge32 (x % (2 ^ 32 : Int)).toNat, c')
      | .TimeTicks =>
        match read_integer c₁ length with
        | .error e => .error (.error e)
        | .ok (x, c') => .ok (.TimeTicks (x % (2 ^ 32 : Int)).toNat, c')
      | .Counter64 =>
        match read_integer c₁ length with
        | .error e => .error (.error e)
        | .ok (x, c') => .ok (.Counter64 (x % (2 ^ 64 : Int)).toNat, c')
      | .Opaque =>
        if c₁.pos + length ≤ c₁.buf.length then
          .ok (.Opaque (((c₁.buf.drop c₁.pos).take length).map (fun x => x % 256)),
            ⟨c₁.buf, c₁.pos + length⟩)
        else .error (.error .Io)
      | .NoSuchObject => .ok (.NoSuchObject, c₁)
      | .NoSuchInstance => .ok (.NoSuchInstance, c₁)
      | .EndOfMibView => .ok (.EndOfMibView, c₁)
      | .EndOfContents => .ok (.EndOfContents, c₁)
      | .Trap =>
        let start := c₁.pos
        match decodeValueF fuel c₁ with
        | .error f => .error f
        | .ok (v₀, c₂) =>
        match v₀.as_oid with
        | .error e => .error (.error e)
        | .ok oid =>
        match decodeValueF fuel c₂ with
        | .error f => .error f
        | .ok (v₁, c₃) =>
        match v₁.as_ipaddr with
        | .error e => .error (.error e)
        | .ok addr =>
        match decodeValueF fuel c₃ with
        | .error f => .error f
        | .ok (v₂, c₄) =>
        match v₂.as_u32 with
        | .error e => .error (.error e)
        | .ok g =>
        match GenericTrap_new g with
        | .error e => .error (.error e)
        | .ok gen =>
        match decodeValueF fuel c₄ with
        | .error f => .error f
        | .ok (v₃, c₅) =>
        match v₃.as_u32 with
        | .error e => .error (.error e)
        | .ok spec =>
        match decodeValueF fuel c₅ with
        | .error f => .error f
        | .ok (v₄, c₆) =>
        match v₄.as_u32 with
        | .error e => .error (.error e)
        | .ok ticks =>
        match var_loop (decodeValueF fuel) (length + 1) c₆ start length with
        | .error f => .error f
        | .ok (vars, c₇) => .ok (.Trap oid addr gen spec ticks vars, c₇)
      | _ => .error (.error .InvalidType)

/-- `decode_value` of src/lib.rs: fuel one larger than the buffer length. -/
def decode_value (c : asn1.Cursor) : LResult (ASN1Value × asn1.Cursor) :=
  decodeValueF (c.buf.length + 1) c

end lib

/-! Spec-side definitions: the BER OID encoding rule as the spec states it
(§4.1), and the big-endian byte value that the spec's integer rules name. -/

/-- The base-7-bit digit list of `n`, most significant first (fueled by `n`,
which is enough since `n / 128 < n` for `n ≥ 128`). -/
def septetsF : Nat → Nat → List Nat
  | 0, n => [n % 128]
  | f + 1, n => if n < 128 then [n] else septetsF f (n / 128) ++ [n % 128]

/-- The 7-bit digits of an arc, most significant first. -/
def septets (n : Nat) : List Nat := septetsF n n

/-- One arc as a base-128 varint per the spec: every octet but the last
carries the continuation (high) bit. -/
def encodeArc (n : Nat) : List Nat :=
  (septets n).dropLast.map (fun x => x + 128) ++ [(septets n).getLastD 0]

/-- The spec's §4.1 OID encoding: first octet `a0 * 40 + a1`, every further
arc a base-128 varint with continuation bits.  (Modelled from the spec: the
repository only decodes OIDs, it has no encoder.) -/
def encodeOIDSpec : List Nat → List Nat
  | a0 :: a1 :: rest => (a0 * 40 + a1) :: (rest.map encodeArc).flatten
  | _ => []

/-- The big-endian unsigned value of a byte list (each byte reduced to its
`u8` payload), most significant byte first. -/
def beNat (bs : List Nat) : Nat := bs.foldl (fun a b => a * 256 + b % 256) 0

/-! Claim theorems. -/

/-- C3 (code_bug evidence): on a buffer decoding to an empty Sequence
container, `SnmpPacket::new` hits `sequence[0]` and panics with an
index-out-of-bounds instead of returning the `WrongType` error the claim
describes. -/
theorem new_panics_on_short_container :
    snmp.SnmpPacket.new [0x30, 0x00] = .error .panic := rfl

/-- C4 (code_bug evidence): encoding the arcs `[1, 3, 128]` per the spec's
base-128 rule gives `2b 81 00`, but `read_oid` decodes those bytes to
`[1, 3, 256]` (its accumulator shifts by 8 bits, not 7), so the round trip
fails on any arc of 128 or more. -/
theorem oid_roundtrip_fails_at_128 :
    encodeOIDSpec [1, 3, 128] = [0x2b, 0x81, 0x00] ∧
    asn1.read_oid ⟨encodeOIDSpec [1, 3, 128], 0⟩ 3 =
      .ok ([1, 3, 256], ⟨encodeOIDSpec [1, 3, 128], 3⟩) ∧
    [1, 3, 256] ≠ [1, 3, 128] :=
  ⟨rfl, rfl, by decide⟩

/-- C5 (code_bug evidence): an arc made of six continuation octets `0x80`
followed by `0x01` is decoded successfully — `read_base128int` consumes all
seven octets and returns 1, because its guard compares the accumulated
*value* with 4 rather than counting octets; with fewer trailing bytes the
loop runs off the buffer into a `ByteOrder` error.  The claimed
`UnexpectedValue` failure after five continuation octets does not happen. -/
theorem varint_guard_not_a_count :
    asn1.read_base128int ⟨[0x80, 0x80, 0x80, 0x80, 0x80, 0x80, 0x01], 0⟩ =
      .ok (1, ⟨[0x80, 0x80, 0x80, 0x80, 0x80, 0x80, 0x01], 7⟩) ∧
    asn1.read_base128int ⟨[0x80, 0x80, 0x80, 0x80, 0x80, 0x80], 0⟩ =
      .error .ByteOrder ∧
    asn1.Error.ByteOrder ≠ asn1.Error.UnexpectedValue :=
  ⟨rfl, rfl, by decide⟩

/-- C6 (code_bug evidence): in the lib.rs trap decoder, a one-element
variable binding is not skipped.  With the standard encoding
(`30 02 05 00`, a sequence holding one Null) the binding decodes as empty
(the sequence loop compares the absolute cursor position with the content
length), its content is then re-read as a stray value and the whole trap
decode fails with the wrong-type error; with a crafted length octet
(`30 17`) the binding decodes as the one-element list and `vbl[1]`
panics.  Both contradict the claimed silent skip. -/
theorem one_element_binding_not_skipped :
    lib.decode_value ⟨[0xa4, 22, 0x06, 0x01, 0x29, 0x40, 0x04, 1, 2, 3, 4,
      0x02, 0x01, 0x00, 0x02, 0x01, 0x00, 0x02, 0x01, 0x00,
      0x30, 0x02, 0x05, 0x00], 0⟩ = .error (.error .WrongType) ∧
    lib.decode_value ⟨[0xa4, 22, 0x06, 0x01, 0x29, 0x40, 0x04, 1, 2, 3, 4,
      0x02, 0x01, 0x00, 0x02, 0x01, 0x00, 0x02, 0x01, 0x00,
      0x30, 23, 0x05, 0x00], 0⟩ = .error .panic :=
  ⟨rfl, rfl⟩

/-- C7 (code_bug evidence): the tag-lookup match of src/asn1.rs has no arm
for `0x44`, so `ASN1Type::from(0x44)` fails with `WrongType` (although the
enum itself defines `Opaque = 0x44` and `decode_value` has an `Opaque`
arm), and a TLV with tag `0x44` never reaches that arm. -/
theorem opaque_tag_rejected :
    asn1.ASN1Type.from 0x44 = .error .WrongType ∧
    asn1.decode_value ⟨[0x44, 0x01, 0xab], 0⟩ = .error .WrongType :=
  ⟨rfl, rfl⟩

/-! Helper lemmas shared by the claim theorems. -/

theorem read_byte_at (pre : List Nat) (b : Nat) (rest : List Nat) :
    asn1.read_byte ⟨pre ++ b :: rest, pre.length⟩ =
      .ok (b % 256, ⟨pre ++ b :: rest, pre.length + 1⟩) := by
  unfold asn1.read_byte
  rw [List.get?_append_right (le_refl pre.length)]
  simp

theorem read_byte_buf {c : asn1.Cursor} {b : Nat} {c' : asn1.Cursor}
    (h : asn1.read_byte c = .ok (b, c')) : c'.buf = c.buf := by
  unfold asn1.read_byte at h
  split at h
  · cases h; rfl
  · exact absurd h (by simp)

theorem read_length_go_buf : ∀ (n acc : Nat) (c : asn1.Cursor) (r : Nat)
    (c' : asn1.Cursor), asn1.read_length_go n acc c = .ok (r, c') → c'.buf = c.buf := by
  intro n
  induction n with
  | zero => intro acc c r c' h; cases h; rfl
  | succ n ih =>
    intro acc c r c' h
    unfold asn1.read_length_go at h
    split at h
    · exact absurd h (by simp)
    · next b c1 heq => exact (ih _ _ _ _ h).trans (read_byte_buf heq)

theorem read_length_buf {c : asn1.Cursor} {r : Nat} {c' : asn1.Cursor}
    (h : asn1.read_length c = .ok (r, c')) : c'.buf = c.buf := by
  unfold asn1.read_length at h
  split at h
  · exact absurd h (by simp)
  · next b c1 heq =>
    split at h
    · cases h; exact read_byte_buf heq
    · exact (read_length_go_buf _ _ _ _ _ h).trans (read_byte_buf heq)

theorem read_tag_value_buf {c : asn1.Cursor} {t : asn1.ASN1Type} {len : Nat}
    {c' : asn1.Cursor} (h : asn1.read_tag_value c = .ok ((t, len), c')) :
    c'.buf = c.buf := by
  unfold asn1.read_tag_value at h
  split at h
  · exact absurd h (by simp)
  · next b c1 heq =>
    split at h
    · exact absurd h (by simp)
    · split at h
      · exact absurd h (by simp)
      · next len2 c2 heq2 =>
        cases h
        exact (read_length_buf heq2).trans (read_byte_buf heq)

/-- C2 (counterexample): the TLV `04 02 41` declares 2 content bytes at a
cursor with only 1 byte remaining after the header, yet `decode_value`
does not fail with `UnexpectedValue`: the bound it checks is against the
whole buffer (3 bytes), so the content read runs short and fails with the
`Io` error instead. -/
theorem length_beyond_remaining_is_io :
    asn1.read_tag_value ⟨[0x04, 0x02, 0x41], 0⟩ =
      .ok ((.OctetString, 2), ⟨[0x04, 0x02, 0x41], 2⟩) ∧
    ([0x04, 0x02, 0x41] : List Nat).length - 2 < 2 ∧
    asn1.decode_value ⟨[0x04, 0x02, 0x41], 0⟩ = .error .Io ∧
    asn1.Error.Io ≠ asn1.Error.UnexpectedValue :=
  ⟨rfl, by decide, rfl, by decide⟩

/-- C2 (amended): the pre-content bound that `decode_value` checks is
against the *total* buffer length: whenever the declared content length
exceeds `c.get_ref().len()`, decoding fails with `UnexpectedValue` right
after the header, before any content byte is read. -/
theorem decode_checks_whole_buffer (c c' : asn1.Cursor) (t : asn1.ASN1Type)
    (len : Nat) (h : asn1.read_tag_value c = .ok ((t, len), c'))
    (hlen : c.buf.length < len) :
    asn1.decode_value c = .error .UnexpectedValue := by
  have hbuf : c'.buf.length = c.buf.length := by rw [read_tag_value_buf h]
  unfold asn1.decode_value
  simp only [asn1.decodeValueF, h]
  rw [if_pos (by omega)]

/-- Witness for `decode_checks_whole_buffer` at the TLV `04 05` (declared
length 5, buffer length 2). -/
theorem decode_checks_whole_buffer_witness :
    asn1.decode_value ⟨[0x04, 0x05], 0⟩ = .error .UnexpectedValue :=
  decode_checks_whole_buffer ⟨[0x04, 0x05], 0⟩ ⟨[0x04, 0x05], 2⟩ .OctetString 5
    rfl (by decide)

theorem read_length_go_at : ∀ (bs pre post : List Nat) (acc : Nat),
    asn1.read_length_go bs.length acc ⟨pre ++ (bs ++ post), pre.length⟩ =
      .ok (bs.foldl (fun a b => a * 256 % 2 ^ 64 + b % 256) acc,
        ⟨pre ++ (bs ++ post), pre.length + bs.length⟩) := by
  intro bs
  induction bs with
  | nil => intro pre post acc; simp [asn1.read_length_go]
  | cons b bs ih =>
    intro pre post acc
    have e1 : pre ++ (b :: bs ++ post) = pre ++ b :: (bs ++ post) := by simp
    simp only [List.length_cons, asn1.read_length_go, e1, read_byte_at]
    have e2 : pre ++ b :: (bs ++ post) = (pre ++ [b]) ++ (bs ++ post) := by simp
    have e3 : pre.length + 1 = (pre ++ [b]).length := by simp
    rw [e2, e3, ih (pre ++ [b]) post]
    simp [List.foldl_cons]
    omega

theorem beNat_split : ∀ (bs : List Nat) (a : Nat),
    bs.foldl (fun x b => x * 256 + b % 256) a = a * 256 ^ bs.length + beNat bs := by
  intro bs
  induction bs with
  | nil => intro a; simp [beNat]
  | cons b bs ih =>
    intro a
    have hb : beNat (b :: bs) = b % 256 * 256 ^ bs.length + beNat bs := by
      show List.foldl _ (0 * 256 + b % 256) bs = _
      rw [ih]
      norm_num
    simp only [List.foldl_cons, List.length_cons, hb, ih (a * 256 + b % 256)]
    ring

theorem foldl_wrap_eq_mod : ∀ (bs : List Nat) (a : Nat), a < 2 ^ 64 →
    bs.foldl (fun x b => x * 256 % 2 ^ 64 + b % 256) a =
      bs.foldl (fun x b => x * 256 + b % 256) a % 2 ^ 64 := by
  intro bs
  induction bs with
  | nil => intro a ha; simp only [List.foldl_nil]; omega
  | cons b bs ih =>
    intro a ha
    have hdvd : (256 : Nat) ∣ 2 ^ 64 := ⟨2 ^ 56, by norm_num⟩
    have hm : a * 256 % 2 ^ 64 % 256 = 0 := by
      rw [Nat.mod_mod_of_dvd _ hdvd, Nat.mul_mod_left]
    have hlt : a * 256 % 2 ^ 64 < 2 ^ 64 := Nat.mod_lt _ (by norm_num)
    have ha' : a * 256 % 2 ^ 64 + b % 256 < 2 ^ 64 := by omega
    simp only [List.foldl_cons]
    rw [ih _ ha', beNat_split bs (a * 256 % 2 ^ 64 + b % 256),
      beNat_split bs (a * 256 + b % 256)]
    have hmeq : (a * 256 % 2 ^ 64 + b % 256) ≡ (a * 256 + b % 256) [MOD 2 ^ 64] :=
      Nat.ModEq.add_right _ (Nat.mod_modEq _ _)
    exact (hmeq.mul_right _).add_right _

/-- C9 (counterexample): the first length octet `0x7f` has its high bit
clear, yet `read_length` does not return 127: the code's short-form test is
`< 127`, so `0x7f` selects the long form and 127 further octets are
consumed (here all zero, giving length 0). -/
theorem short_form_cutoff_at_127 :
    asn1.read_length ⟨0x7f :: List.replicate 127 0, 0⟩ =
      .ok (0, ⟨0x7f :: List.replicate 127 0, 128⟩) ∧
    asn1.read_length ⟨0x7f :: List.replicate 127 0, 0⟩ ≠
      .ok (127, ⟨0x7f :: List.replicate 127 0, 1⟩) :=
  ⟨by decide, by decide⟩

/-- C9 (amended): `read_length` takes the short form exactly for first
octets 0–126, returning the octet itself and consuming nothing further;
any first octet from 127 up — including `0x7f`, whose high bit is clear —
selects the long form, whose low 7 bits count the subsequent big-endian
length octets (accumulated in a wrapping 64-bit value). -/
theorem read_length_forms (pre bs post : List Nat) (b : Nat)
    (hb : b < 256) (hlen : bs.length = b % 128) :
    (b < 127 →
      asn1.read_length ⟨pre ++ b :: (bs ++ post), pre.length⟩ =
        .ok (b, ⟨pre ++ b :: (bs ++ post), pre.length + 1⟩)) ∧
    (127 ≤ b →
      asn1.read_length ⟨pre ++ b :: (bs ++ post), pre.length⟩ =
        .ok (beNat bs % 2 ^ 64,
          ⟨pre ++ b :: (bs ++ post), pre.length + 1 + bs.length⟩)) := by
  constructor
  · intro h
    simp only [asn1.read_length, read_byte_at, Nat.mod_eq_of_lt hb]
    rw [if_pos h]
  · intro h
    simp only [asn1.read_length, read_byte_at, Nat.mod_eq_of_lt hb]
    rw [if_neg (by omega), ← hlen]
    have e2 : pre ++ b :: (bs ++ post) = (pre ++ [b]) ++ (bs ++ post) := by simp
    have e3 : pre.length + 1 = (pre ++ [b]).length := by simp
    rw [e2, e3, read_length_go_at bs (pre ++ [b]) post 0,
      foldl_wrap_eq_mod bs 0 (by norm_num)]
    simp [beNat]

/-- Witness for `read_length_forms`: the long-form length `81 05` decodes
to 5, consuming the count octet and one length octet. -/
theorem read_length_forms_witness :
    asn1.read_length ⟨[0x81, 0x05], 0⟩ =
      .ok (beNat [0x05] % 2 ^ 64, ⟨[0x81, 0x05], 2⟩) :=
  (read_length_forms [] [0x05] [] 0x81 (by decide) (by decide)).2 (by decide)

/-- C10: `oid_equals` compares only the overlapping prefix of its two
arguments: whenever the slices agree pointwise up to the shorter length it
returns `true`, so every OID equals each of its prefixes and every slice
equals the empty slice. -/
theorem oid_equals_ignores_length :
    (∀ a b : List Nat,
      (∀ i, i < min a.length b.length → a.getD i 0 = b.getD i 0) →
      asn1.oid_equals a b = true) ∧
    (∀ (l : List Nat) (k : Nat), asn1.oid_equals l (l.take k) = true) ∧
    (∀ l : List Nat, asn1.oid_equals l [] = true) := by
  refine ⟨?_, ?_, ?_⟩
  · intro a
    induction a with
    | nil => intro b h; simp [asn1.oid_equals]
    | cons x a ih =>
      intro b h
      cases b with
      | nil => simp [asn1.oid_equals]
      | cons y b =>
        have h0 : x = y := by
          have := h 0 (Nat.lt_min.mpr ⟨Nat.succ_pos _, Nat.succ_pos _⟩)
          simpa using this
        have hrest := ih b (fun i hi => by
          have := h (i + 1) (by
            rw [Nat.lt_min] at hi ⊢
            simp only [List.length_cons]
            omega)
          simpa using this)
        simp only [asn1.oid_equals, List.zip_cons_cons, List.all_cons] at hrest ⊢
        simp [h0, hrest]
  · intro l
    induction l with
    | nil => intro k; simp [asn1.oid_equals]
    | cons x l ih =>
      intro k
      cases k with
      | zero => simp [asn1.oid_equals]
      | succ k =>
        have := ih k
        simp only [asn1.oid_equals, List.take_succ_cons, List.zip_cons_cons,
          List.all_cons] at this ⊢
        simp [this]
  · intro l; simp [asn1.oid_equals]

/-- Witness for `oid_equals_ignores_length`: a three-arc OID compares equal
to its two-arc prefix. -/
theorem oid_equals_ignores_length_witness :
    asn1.oid_equals [1, 3, 6] [1, 3] = true :=
  oid_equals_ignores_length.1 [1, 3, 6] [1, 3] (by decide)

theorem wrap64_id (x : Int) (h0 : 0 ≤ x) (h1 : x < 2 ^ 63) :
    asn1.wrap64 x = x := by
  unfold asn1.wrap64
  rw [Int.emod_eq_of_lt (by omega) (by omega)]
  omega

theorem read_integer_go_at : ∀ (bs pre post : List Nat) (v : Nat),
    (v + 1) * 256 ^ bs.length ≤ 2 ^ 63 →
    asn1.read_integer_go bs.length (v : Int) ⟨pre ++ (bs ++ post), pre.length⟩ =
      .ok (((bs.foldl (fun a b => a * 256 + b % 256) v : Nat) : Int),
        ⟨pre ++ (bs ++ post), pre.length + bs.length⟩) := by
  intro bs
  induction bs with
  | nil => intro pre post v hv; simp [asn1.read_integer_go]
  | cons b bs ih =>
    intro pre post v hv
    have hpow : (256 : Nat) ≤ 256 ^ (b :: bs).length := by
      simpa using Nat.le_self_pow (n := (b :: bs).length) (by simp) 256
    have hstep : (v * 256 + b % 256 + 1) * 256 ^ bs.length ≤ 2 ^ 63 := by
      have h1 : v * 256 + b % 256 + 1 ≤ (v + 1) * 256 := by
        have := Nat.mod_lt b (y := 256) (by norm_num)
        omega
      calc (v * 256 + b % 256 + 1) * 256 ^ bs.length
          ≤ (v + 1) * 256 * 256 ^ bs.length := Nat.mul_le_mul_right _ h1
        _ = (v + 1) * 256 ^ (b :: bs).length := by
            simp [List.length_cons, pow_succ]; ring
        _ ≤ 2 ^ 63 := hv
    have hlt : (v * 256 + b % 256 : Nat) < 2 ^ 63 := by
      have h3 : (1 : Nat) ≤ 256 ^ bs.length := Nat.one_le_pow _ _ (by norm_num)
      nlinarith
    have e1 : pre ++ (b :: bs ++ post) = pre ++ b :: (bs ++ post) := by simp
    simp only [List.length_cons, asn1.read_integer_go, e1, read_byte_at]
    have hcast : asn1.wrap64 ((v : Int) * 256 + ((b % 256 : Nat) : Int)) =
        (((v * 256 + b % 256 : Nat)) : Int) := by
      rw [show ((v : Int) * 256 + ((b % 256 : Nat) : Int)) =
          (((v * 256 + b % 256 : Nat)) : Int) by push_cast; ring]
      exact wrap64_id _ (by positivity) (by exact_mod_cast hlt)
    rw [hcast]
    have e2 : pre ++ b :: (bs ++ post) = (pre ++ [b]) ++ (bs ++ post) := by simp
    have e3 : pre.length + 1 = (pre ++ [b]).length := by simp
    rw [e2, e3, ih (pre ++ [b]) post (v * 256 + b % 256) hstep]
    simp
    omega

/-- C8: `read_integer` is plain big-endian unsigned accumulation: for any
content of at most 7 bytes it returns the nonnegative big-endian magnitude
of those bytes (no two's-complement sign extension), and in particular the
one-byte content `0xff` decodes to 255 — never −1 — under the signed
Integer tag and the Counter32/Gauge32/TimeTicks/Counter64 tags alike. -/
theorem read_integer_unsigned (pre bs post : List Nat) (hlen : bs.length ≤ 7) :
    asn1.read_integer ⟨pre ++ (bs ++ post), pre.length⟩ bs.length =
      .ok ((beNat bs : Int), ⟨pre ++ (bs ++ post), pre.length + bs.length⟩) ∧
    (0 : Int) ≤ (beNat bs : Int) ∧
    asn1.decode_value ⟨[0x02, 0x01, 0xff], 0⟩ =
      .ok (.Integer 255, ⟨[0x02, 0x01, 0xff], 3⟩) ∧
    asn1.decode_value ⟨[0x41, 0x01, 0xff], 0⟩ =
      .ok (.Counter32 255, ⟨[0x41, 0x01, 0xff], 3⟩) ∧
    asn1.decode_value ⟨[0x42, 0x01, 0xff], 0⟩ =
      .ok (.Gauge32 255, ⟨[0x42, 0x01, 0xff], 3⟩) ∧
    asn1.decode_value ⟨[0x43, 0x01, 0xff], 0⟩ =
      .ok (.TimeTicks 255, ⟨[0x43, 0x01, 0xff], 3⟩) ∧
    asn1.decode_value ⟨[0x46, 0x01, 0xff], 0⟩ =
      .ok (.Counter64 255, ⟨[0x46, 0x01, 0xff], 3⟩) := by
  refine ⟨?_, by positivity, rfl, rfl, rfl, rfl, rfl⟩
  have hbound : (0 + 1) * 256 ^ bs.length ≤ 2 ^ 63 := by
    have h1 : (256 : Nat) ^ bs.length ≤ 256 ^ 7 :=
      Nat.pow_le_pow_right (by norm_num) hlen
    omega
  have := read_integer_go_at bs pre post 0 hbound
  simpa [asn1.read_integer, beNat] using this

/-- Witness for `read_integer_unsigned`: the one-byte content `0xff` read
at the start of a one-byte buffer gives 255. -/
theorem read_integer_unsigned_witness :
    asn1.read_integer ⟨[0xff], 0⟩ 1 = .ok ((beNat [0xff] : Int), ⟨[0xff], 1⟩) :=
  (read_integer_unsigned [] [0xff] [] (by decide)).1

/-- A 34-byte packet whose version element is `Integer(2^32)`: a 5-byte
integer `01 00 00 00 00`, community "a", and a minimal cold-start Trap
PDU. -/
def verTruncBuf : List Nat :=
  [0x30, 0x20,
   0x02, 0x05, 0x01, 0x00, 0x00, 0x00, 0x00,
   0x04, 0x01, 0x61,
   0xa4, 0x14,
   0x06, 0x01, 0x29,
   0x40, 0x04, 0x01, 0x02, 0x03, 0x04,
   0x02, 0x01, 0x00,
   0x02, 0x01, 0x00,
   0x02, 0x01, 0x00,
   0x30, 0x00]

/-- C1 (counterexample): `verTruncBuf` decodes to a sequence whose first
element is `Integer(4294967296)` — a nonzero 64-bit magnitude — and
`SnmpPacket::new` accepts the packet as v1 anyway, because `as_u32`
truncates the `i64` with `as u32` before the version comparison. -/
theorem version_2pow32_accepted :
    asn1.decode_value ⟨verTruncBuf, 0⟩ =
      .ok (.Sequence [.Integer 4294967296, .OctetString [0x61],
        .Trap [.ObjectIdentifier [1, 1], .IPAddress (.v4 1 2 3 4),
          .Integer 0, .Integer 0, .Integer 0, .Sequence []]],
        ⟨verTruncBuf, 34⟩) ∧
    (4294967296 : Int) ≠ 0 ∧
    snmp.SnmpPacket.new verTruncBuf =
      .ok (.V1 ⟨[0x61], .Trap ⟨[1, 1], .v4 1 2 3 4, .ColdStart, 0, 0, []⟩⟩) :=
  ⟨rfl, by decide, rfl⟩

/-- C1 (amended): the version gate only sees the low 32 bits of the decoded
integer — whenever `SnmpPacket::new` accepts a packet whose first sequence
element is `Integer(x)`, necessarily `x % 2^32 = 0`; integers whose low 32
bits are nonzero are never accepted, but nonzero multiples of `2^32` pass
as version 0. -/
theorem accepted_version_truncates_to_zero (b : List Nat) (v : asn1.ASN1Value)
    (c : asn1.Cursor) (s : List asn1.ASN1Value) (x : Int) (p : snmp.SnmpPacket)
    (hdec : asn1.decode_value ⟨b, 0⟩ = .ok (v, c))
    (hseq : v.as_sequence = .ok s)
    (h0 : s.get? 0 = some (.Integer x))
    (hok : snmp.SnmpPacket.new b = .ok p) :
    x % (2 ^ 32 : Int) = 0 := by
  unfold snmp.SnmpPacket.new at hok
  rw [hdec] at hok
  cases hs1 : s.get? 1 with
  | none =>
    simp only [snmp.liftA, hseq, snmp.idx, h0, hs1, asn1.ASN1Value.as_u32] at hok
    exact Except.noConfusion hok
  | some v1 =>
    cases hstr : v1.as_string with
    | error e =>
      simp only [snmp.liftA, hseq, snmp.idx, h0, hs1, hstr,
        asn1.ASN1Value.as_u32] at hok
      exact Except.noConfusion hok
    | ok comm =>
      cases hv : (x % (2 ^ 32 : Int)).toNat with
      | zero =>
        have h1 : 0 ≤ x % (2 ^ 32 : Int) := Int.emod_nonneg x (by norm_num)
        rw [← Int.toNat_of_nonneg h1, hv]
        rfl
      | succ n =>
        simp only [snmp.liftA, hseq, snmp.idx, h0, hs1, hstr,
          asn1.ASN1Value.as_u32, hv] at hok
        exact Except.noConfusion hok

/-- A 30-byte version-0 packet: `Sequence[Integer(0), OctetString "a",
Trap[...]]`, accepted as v1. -/
def v0Buf : List Nat :=
  [0x30, 0x1c,
   0x02, 0x01, 0x00,
   0x04, 0x01, 0x61,
   0xa4, 0x14,
   0x06, 0x01, 0x29,
   0x40, 0x04, 0x01, 0x02, 0x03, 0x04,
   0x02, 0x01, 0x00,
   0x02, 0x01, 0x00,
   0x02, 0x01, 0x00,
   0x30, 0x00]

/-- Witness for `accepted_version_truncates_to_zero` at the accepted
version-0 packet `v0Buf`. -/
theorem accepted_version_truncates_to_zero_witness :
    (0 : Int) % (2 ^ 32 : Int) = 0 :=
  accepted_version_truncates_to_zero v0Buf
    (.Sequence [.Integer 0, .OctetString [0x61],
      .Trap [.ObjectIdentifier [1, 1], .IPAddress (.v4 1 2 3 4),
        .Integer 0, .Integer 0, .Integer 0, .Sequence []]])
    ⟨v0Buf, 30⟩
    [.Integer 0, .OctetString [0x61],
      .Trap [.ObjectIdentifier [1, 1], .IPAddress (.v4 1 2 3 4),
        .Integer 0, .Integer 0, .Integer 0, .Sequence []]]
    0
    (.V1 ⟨[0x61], .Trap ⟨[1, 1], .v4 1 2 3 4, .ColdStart, 0, 0, []⟩⟩)
    rfl rfl rfl rfl
